import Mathlib

/-!
Verification development for the disaster-resource-management backend.

Each definition is a shallow embedding of a function of the Python source
(`backend/app/services/...`); Python floats are modelled as `ℚ` where only
field arithmetic and comparisons occur, and as `ℝ` where transcendental
functions occur (the haversine distance).  External components (the PuLP
MILP solver, the `re` regex engine, SendGrid, the database) are modelled
as explicit parameters, so that every embedded definition stays
executable.
-/

/-! ## `app/services/distance.py` -/

/-- Mean Earth radius in km (WGS-84), constant `_EARTH_RADIUS_KM`. -/
noncomputable def _EARTH_RADIUS_KM : ℝ := 6371

/-- Embedding of `haversine(lat1, lon1, lat2, lon2)`: great-circle distance in
km.  `math.radians x = x * pi / 180`; the source computes
`a = sin(dlat/2)**2 + cos(lat1)*cos(lat2)*sin(dlon/2)**2` and returns
`2 * R * asin(sqrt(a))`. -/
noncomputable def haversine (lat1 lon1 lat2 lon2 : ℝ) : ℝ :=
  2 * _EARTH_RADIUS_KM * Real.arcsin (Real.sqrt (
    Real.sin ((lat2 * Real.pi / 180 - lat1 * Real.pi / 180) / 2) ^ 2 +
    Real.cos (lat1 * Real.pi / 180) * Real.cos (lat2 * Real.pi / 180) *
      Real.sin ((lon2 * Real.pi / 180 - lon1 * Real.pi / 180) / 2) ^ 2))

/-! ## `app/services/ingestion/usgs_service.py` -/

/-- Embedding of the `_MAG_SEVERITY` table: magnitude thresholds paired with
severity labels, scanned in order. -/
def _MAG_SEVERITY : List (ℚ × String) :=
  [(7, "critical"), (6, "high"), (5, "medium"), (0, "low")]

/-- Embedding of `_magnitude_to_severity(mag)`: the `for` loop returns the
severity of the first table row whose threshold is ≤ `mag`, and `"low"` when
no row matches. -/
def _magnitude_to_severity (mag : ℚ) : String :=
  match _MAG_SEVERITY.find? (fun p => p.1 ≤ mag) with
  | some p => p.2
  | none => "low"

/-! ## `app/services/anomaly_service.py` -/

/-- Embedding of `AnomalyDetectionService._classify_severity(anomaly_score,
metric_name)`.  The `metric_name` parameter is accepted but never read by the
source body. -/
def _classify_severity (anomaly_score : ℚ) (metric_name : String) : String :=
  if anomaly_score < -(3/10) then "critical"
  else if anomaly_score < -(2/10) then "high"
  else if anomaly_score < -(1/10) then "medium"
  else "low"

/-! ## Severity / priority order -/

/-- Embedding of `PRIORITY_LEVELS` from `app/services/nlp_service.py`; this is
also the severity order low < medium < high < critical used by the spec. -/
def PRIORITY_LEVELS : List String := ["low", "medium", "high", "critical"]

/-- Rank of a label in the order low < medium < high < critical
(`PRIORITY_LEVELS.index`). -/
def priorityRank (p : String) : Nat := PRIORITY_LEVELS.indexOf p

/-! ## Theorems for the severity maps and the distance function -/

/-- C7: the geophysical magnitude-to-severity mapping is monotone under the
order low < medium < high < critical, and follows the bands
magnitude ≥ 7 → critical, ≥ 6 → high, ≥ 5 → medium, else low. -/
theorem magnitude_to_severity_monotone (m1 m2 : ℚ) (h : m1 ≤ m2) :
    priorityRank (_magnitude_to_severity m1) ≤ priorityRank (_magnitude_to_severity m2) ∧
    _magnitude_to_severity m1 =
      (if 7 ≤ m1 then "critical" else if 6 ≤ m1 then "high"
       else if 5 ≤ m1 then "medium" else "low") := by
  have hband : ∀ m : ℚ, _magnitude_to_severity m =
      (if 7 ≤ m then "critical" else if 6 ≤ m then "high"
       else if 5 ≤ m then "medium" else "low") := by
    intro m
    simp only [_magnitude_to_severity, _MAG_SEVERITY, List.find?]
    by_cases h7 : (7:ℚ) ≤ m
    · simp [h7, decide_eq_true_eq]
    · by_cases h6 : (6:ℚ) ≤ m
      · simp [h7, h6]
      · by_cases h5 : (5:ℚ) ≤ m
        · simp [h7, h6, h5]
        · by_cases h0 : (0:ℚ) ≤ m <;> simp [h7, h6, h5, h0]
  refine ⟨?_, hband m1⟩
  rw [hband m1, hband m2]
  split_ifs <;> first | decide | (exfalso; linarith)

/-- C7 witness: the monotonicity theorem applied at magnitudes 5.5 ≤ 7.2. -/
theorem magnitude_to_severity_monotone_witness :
    priorityRank (_magnitude_to_severity (11/2)) ≤ priorityRank (_magnitude_to_severity (36/5)) ∧
    _magnitude_to_severity (11/2) =
      (if 7 ≤ (11/2:ℚ) then "critical" else if 6 ≤ (11/2:ℚ) then "high"
       else if 5 ≤ (11/2:ℚ) then "medium" else "low") :=
  magnitude_to_severity_monotone (11/2) (36/5) (by norm_num)

/-- C8: `_classify_severity` returns "critical" exactly when the score is
below −0.3, "high" exactly on [−0.3, −0.2), "medium" exactly on
[−0.2, −0.1), and "low" exactly when the score is ≥ −0.1; the metric name
never affects the result. -/
theorem classify_severity_bands (s : ℚ) (m m2 : String) :
    ((_classify_severity s m = "critical") ↔ s < -(3/10)) ∧
    ((_classify_severity s m = "high") ↔ (-(3/10) ≤ s ∧ s < -(2/10))) ∧
    ((_classify_severity s m = "medium") ↔ (-(2/10) ≤ s ∧ s < -(1/10))) ∧
    ((_classify_severity s m = "low") ↔ -(1/10) ≤ s) ∧
    _classify_severity s m = _classify_severity s m2 := by
  simp only [_classify_severity]
  split_ifs with h1 h2 h3
  · exact ⟨iff_of_true rfl h1,
      iff_of_false (by decide) (fun hc => by linarith [hc.1]),
      iff_of_false (by decide) (fun hc => by linarith [hc.1]),
      iff_of_false (by decide) (fun hc => by linarith), trivial⟩
  · exact ⟨iff_of_false (by decide) h1,
      iff_of_true rfl ⟨by linarith, h2⟩,
      iff_of_false (by decide) (fun hc => by linarith [hc.1]),
      iff_of_false (by decide) (fun hc => by linarith), trivial⟩
  · exact ⟨iff_of_false (by decide) h1,
      iff_of_false (by decide) (fun hc => h2 hc.2),
      iff_of_true rfl ⟨not_lt.mp h2, h3⟩,
      iff_of_false (by decide) (fun hc => by linarith), trivial⟩
  · exact ⟨iff_of_false (by decide) h1,
      iff_of_false (by decide) (fun hc => h2 hc.2),
      iff_of_false (by decide) (fun hc => h3 hc.2),
      iff_of_true rfl (not_lt.mp h3), trivial⟩

/-- C10: the haversine distance is symmetric in its two coordinate pairs,
always non-negative, and zero when the two coordinate pairs coincide. -/
theorem haversine_symm_nonneg_zero :
    (∀ lat1 lon1 lat2 lon2 : ℝ,
        haversine lat1 lon1 lat2 lon2 = haversine lat2 lon2 lat1 lon1) ∧
    (∀ lat1 lon1 lat2 lon2 : ℝ, 0 ≤ haversine lat1 lon1 lat2 lon2) ∧
    (∀ lat lon : ℝ, haversine lat lon lat lon = 0) := by
  have key : ∀ x y : ℝ, Real.sin ((x - y) / 2) ^ 2 = Real.sin ((y - x) / 2) ^ 2 := by
    intro x y
    have hxy : (x - y) / 2 = -((y - x) / 2) := by ring
    rw [hxy, Real.sin_neg]
    ring
  refine ⟨?_, ?_, ?_⟩
  · intro lat1 lon1 lat2 lon2
    unfold haversine
    rw [key (lat2 * Real.pi / 180) (lat1 * Real.pi / 180),
        key (lon2 * Real.pi / 180) (lon1 * Real.pi / 180),
        mul_comm (Real.cos (lat1 * Real.pi / 180)) (Real.cos (lat2 * Real.pi / 180))]
  · intro lat1 lon1 lat2 lon2
    unfold haversine
    refine mul_nonneg (by norm_num [_EARTH_RADIUS_KM]) ?_
    exact Real.arcsin_nonneg.mpr (Real.sqrt_nonneg _)
  · intro lat lon
    unfold haversine
    simp [Real.sqrt_zero, Real.arcsin_zero]

/-! ## `app/services/nlp_service.py` -/

/-- Result of one `re` match, as used by the source: `match.group(0)` and
`match.start()`.  The regex engine itself is external; functions below take
the `re.finditer` behaviour as a parameter `finditer pattern text`. -/
structure ReMatch where
  text : String
  start : Nat
deriving DecidableEq

/-- Embedding of the `UrgencySignal` dataclass. -/
structure UrgencySignal where
  keyword : String
  label : String
  severity_boost : Int
  offset : Nat
deriving DecidableEq

/-- Embedding of `URGENCY_RULES`: `(pattern, label, severity_boost)` tuples.
The regex metacharacter braces of the `large_group` pattern are written with
`\x7b`/`\x7d` escapes. -/
def URGENCY_RULES : List (String × String × Int) := [
  ("\\b(unconscious|unresponsive|not breathing|cardiac arrest)\\b", "unconscious", 3),
  ("\\b(trapped|pinned|buried|stuck under)\\b", "trapped", 3),
  ("\\b(heavy bleeding|hemorrhag|severe bleed|blood loss)\\b", "severe_bleeding", 3),
  ("\\b(drowning|submerged)\\b", "drowning", 3),
  ("\\b(crush(ed|ing)?)\\b", "crush_injury", 3),
  ("\\b(not moving|paralyz)\\b", "immobile", 2),
  ("\\b(infant|newborn|baby|toddler)\\b", "infant", 2),
  ("\\b(elderly|senior|aged|old (man|woman|person))\\b", "elderly", 2),
  ("\\b(pregnant|expecting)\\b", "pregnant", 2),
  ("\\b(disabled|wheelchair|disability)\\b", "disabled", 2),
  ("\\bno (water|food|medicine) for \\d+ day", "prolonged_deprivation", 2),
  ("\\b(dehydrat|starv)\\w*\\b", "dehydration_starvation", 2),
  ("\\b(no (clean )?water)\\b", "no_water", 1),
  ("\\b(no food|hungry|starving)\\b", "no_food", 1),
  ("\\b(no shelter|homeless|exposed)\\b", "no_shelter", 1),
  ("\\b(no medic(ine|ation)|out of med)\\b", "no_medicine", 1),
  ("\\b(bleeding|wound|injur|fracture|broken bone)\\b", "injury", 1),
  ("\\b(infection|fever|sepsis)\\b", "infection", 1),
  ("\\b(diabete?s|insulin)\\b", "chronic_medical", 1),
  ("\\b(asthma|inhaler|breathing difficult)\\b", "respiratory", 1),
  ("\\b(chest pain|heart)\\b", "cardiac_symptom", 2),
  ("\\b(seizure|convuls)\\b", "seizure", 2),
  ("\\b(\\d\x7b2,\x7d) (people|persons|family members|families)\\b", "large_group", 1),
  ("\\b(children|kids)\\b", "children_present", 1)]

/-- Processing of one rule inside `extract_urgency_signals`: the inner
`for match in re.finditer(pattern, text_lower)` loop, appending a signal for
a label not yet in `seen_labels`.  `acc` carries `(signals, seen_labels)`. -/
def applyRule (textLower : String) (finditer : String → String → List ReMatch)
    (acc : List UrgencySignal × List String) (rule : String × String × Int) :
    List UrgencySignal × List String :=
  (finditer rule.1 textLower).foldl
    (fun a m =>
      if a.2.contains rule.2.1 then a
      else (a.1 ++ [⟨m.text, rule.2.1, rule.2.2, m.start⟩], a.2 ++ [rule.2.1]))
    acc

/-- Embedding of `extract_urgency_signals(text)`: empty text yields `[]`;
otherwise every rule is scanned over the lower-cased text, deduplicating by
label, and the collected signals are sorted by `severity_boost` descending
(Python's stable `list.sort` with `reverse=True` is a stable merge sort under
the reversed key comparison). -/
def extract_urgency_signals (finditer : String → String → List ReMatch)
    (text : String) : List UrgencySignal :=
  if text = "" then []
  else
    ((URGENCY_RULES.foldl (applyRule text.toLower finditer) ([], [])).1).mergeSort
      (fun a b => decide (b.severity_boost ≤ a.severity_boost))

/-- Python `max` over a list (`max()` raises on an empty list; the source only
applies it to non-empty data, the default is never exercised there). -/
def pyMax {α : Type} [Max α] (dflt : α) : List α → α
  | [] => dflt
  | a :: l => l.foldl max a

/-- Python list indexing for `PRIORITY_LEVELS[new_idx]`: a negative index
counts from the end; an out-of-range index raises `IndexError` in Python and
is modelled as `""` (never exercised on indexes produced by the source). -/
def pyGet (l : List String) (i : Int) : String :=
  if 0 ≤ i then l.getD i.toNat ""
  else if (-i).toNat ≤ l.length then l.getD (l.length - (-i).toNat) "" else ""

/-- Embedding of `PRIORITY_LEVELS.index(base_priority) if base_priority in
PRIORITY_LEVELS else 1`. -/
def pyBaseIdx (base : String) : Int :=
  if base ∈ PRIORITY_LEVELS then ((PRIORITY_LEVELS.indexOf base : Nat) : Int) else 1

/-- Embedding of `escalate_priority(base_priority, signals)`: with no signals
the base priority is returned unescalated; otherwise the new priority index is
`min(base_idx + max(severity_boosts), len(PRIORITY_LEVELS) - 1)` and
`was_escalated = new_idx > base_idx`. -/
def escalate_priority (base : String) (signals : List UrgencySignal) :
    String × Bool :=
  if signals = [] then (base, false)
  else
    let base_idx := pyBaseIdx base
    let max_boost := pyMax 0 (signals.map (fun s => s.severity_boost))
    let new_idx := min (base_idx + max_boost) ((PRIORITY_LEVELS.length : Int) - 1)
    (pyGet PRIORITY_LEVELS new_idx, decide (base_idx < new_idx))

/-- One urgency-signal entry of `ClassificationResult.urgency_signals`, as the
dict built in `classify_request` (the `offset` field is dropped there). -/
structure SignalDict where
  keyword : String
  label : String
  severity_boost : Int
deriving DecidableEq

/-- Embedding of the `ClassificationResult` dataclass. -/
structure ClassificationResult where
  resource_types : List String := []
  resource_type_scores : List (String × ℚ) := []
  recommended_priority : String := "medium"
  priority_confidence : ℚ := 1/2
  original_priority : Option String := none
  priority_was_escalated : Bool := false
  estimated_quantity : Int := 1
  urgency_signals : List SignalDict := []
  confidence : ℚ := 1/2

/-- Python `round(x, 3)` on the confidence value (CPython rounds half to
even on floats; the choice at exact midpoints is irrelevant to the claims). -/
def round3 (q : ℚ) : ℚ := ((round (q * 1000) : ℤ) : ℚ) / 1000

/-- Embedding of `classify_request(description, user_priority, ...)`.  The
helper passes `classifyResourceType` (for `classify_resource_type`) and
`estimateQuantity` (for `estimate_quantity`) as parameters: those two
functions live in the same module but only feed fields that no claim about
`urgency_signals` or priority depends on; the signal pipeline and the
confidence arithmetic are embedded directly from the source. -/
def classify_request (finditer : String → String → List ReMatch)
    (classifyResourceType : String → List String × List (String × ℚ))
    (estimateQuantity : String → Int)
    (description : String) (user_priority : String) : ClassificationResult :=
  let signals := extract_urgency_signals finditer description
  let ts := classifyResourceType description
  let rp := escalate_priority user_priority signals
  let type_conf : ℚ := if ts.2 = [] then 3/10 else pyMax 0 (ts.2.map (fun p => p.2))
  let signal_conf : ℚ :=
    if signals = [] then 2/5
    else min ((signals.length : ℚ) * (3/20) + 2/5) (19/20)
  { original_priority := some user_priority
    urgency_signals := signals.map (fun s => ⟨s.keyword, s.label, s.severity_boost⟩)
    resource_types := ts.1
    resource_type_scores := ts.2
    estimated_quantity := estimateQuantity description
    recommended_priority := rp.1
    priority_was_escalated := rp.2
    priority_confidence := signal_conf
    confidence := round3 ((type_conf + signal_conf) / 2) }

/-! ## Lemmas about `pyMax` and the priority order -/

/-- A `foldl max` is at least its initial value. -/
lemma le_foldl_max {α : Type} [LinearOrder α] (l : List α) (a : α) :
    a ≤ l.foldl max a := by
  induction l generalizing a with
  | nil => exact le_rfl
  | cons b t ih => exact le_trans (le_max_left a b) (ih (max a b))

/-- Monotonicity of `foldl max` in the initial value. -/
lemma foldl_max_mono {α : Type} [LinearOrder α] (l : List α) {a b : α}
    (h : a ≤ b) : l.foldl max a ≤ l.foldl max b := by
  induction l generalizing a b with
  | nil => exact h
  | cons c t ih => exact ih (max_le_max h le_rfl)

/-- `pyMax` only grows when the list is extended on the right. -/
lemma pyMax_le_append {α : Type} [LinearOrder α] (d : α) {l1 : List α}
    (h : l1 ≠ []) (l2 : List α) : pyMax d l1 ≤ pyMax d (l1 ++ l2) := by
  cases l1 with
  | nil => exact absurd rfl h
  | cons a t =>
      show t.foldl max a ≤ (t ++ l2).foldl max a
      rw [List.foldl_append]
      exact le_foldl_max l2 (t.foldl max a)

/-- `pyMax 0` of a non-empty list of non-negative integers is non-negative. -/
lemma pyMax_nonneg {l : List Int} (h : ∀ b ∈ l, 0 ≤ b) (hne : l ≠ []) :
    0 ≤ pyMax 0 l := by
  cases l with
  | nil => exact absurd rfl hne
  | cons a t =>
      exact le_trans (h a (List.mem_cons_self a t)) (le_foldl_max t a)

/-- Rank of `PRIORITY_LEVELS[k]` for an in-range index `k`. -/
lemma rank_pyGet (k : Int) (h0 : 0 ≤ k) (h3 : k ≤ 3) :
    priorityRank (pyGet PRIORITY_LEVELS k) = k.toNat := by
  interval_cases k <;> decide

/-- The Python base index of a valid priority label. -/
lemma pyBaseIdx_mem (p : String) (hp : p ∈ PRIORITY_LEVELS) :
    0 ≤ pyBaseIdx p ∧ pyBaseIdx p ≤ 3 ∧ (pyBaseIdx p).toNat = priorityRank p := by
  fin_cases hp <;> refine ⟨by decide, by decide, by decide⟩

/-- Shape of `escalate_priority` on a non-empty signal list. -/
lemma escalate_priority_cons (base : String) {S : List UrgencySignal}
    (hS : S ≠ []) :
    (escalate_priority base S).1 =
      pyGet PRIORITY_LEVELS
        (min (pyBaseIdx base + pyMax 0 (S.map (fun s => s.severity_boost)))
          ((PRIORITY_LEVELS.length : Int) - 1)) := by
  simp [escalate_priority, hS]

/-- C6: `escalate_priority` is monotone in its signal set under the order
low < medium < high < critical — appending further signals can only raise the
returned priority — and a critical base priority is a fixed point for every
signal set.  Signals carry the non-negative boosts of `URGENCY_RULES`. -/
theorem escalate_priority_monotone (p : String) (hp : p ∈ PRIORITY_LEVELS)
    (S1 S2 : List UrgencySignal)
    (h1 : ∀ s ∈ S1, 0 ≤ s.severity_boost)
    (h2 : ∀ s ∈ S2, 0 ≤ s.severity_boost) :
    priorityRank (escalate_priority p S1).1 ≤
      priorityRank (escalate_priority p (S1 ++ S2)).1 ∧
    (escalate_priority "critical" (S1 ++ S2)).1 = "critical" := by
  have hlen : ((PRIORITY_LEVELS.length : Int) - 1) = 3 := by decide
  have h12 : ∀ s ∈ S1 ++ S2, 0 ≤ s.severity_boost := by
    intro s hs
    rcases List.mem_append.mp hs with h | h
    · exact h1 s h
    · exact h2 s h
  constructor
  · obtain ⟨hb0, hb3, hbr⟩ := pyBaseIdx_mem p hp
    by_cases hS1 : S1 = []
    · subst hS1
      by_cases hS2 : S2 = []
      · subst hS2; exact le_rfl
      · have hmb : 0 ≤ pyMax 0 (S2.map (fun s => s.severity_boost)) := by
          refine pyMax_nonneg ?_ ?_
          · intro b hb
            obtain ⟨s, hs, rfl⟩ := List.mem_map.mp hb
            exact h2 s hs
          · simpa using hS2
        rw [List.nil_append, escalate_priority_cons p hS2, hlen]
        have e0 : (escalate_priority p []).1 = p := by simp [escalate_priority]
        rw [e0]
        set k := min (pyBaseIdx p + pyMax 0 (S2.map (fun s => s.severity_boost))) 3 with hk
        have hk0 : 0 ≤ k := le_min (by linarith) (by norm_num)
        have hk3 : k ≤ 3 := min_le_right _ _
        rw [rank_pyGet k hk0 hk3]
        have hbk : pyBaseIdx p ≤ k := le_min (by linarith) hb3
        calc priorityRank p = (pyBaseIdx p).toNat := hbr.symm
          _ ≤ k.toNat := Int.toNat_le_toNat hbk
    · have hS12 : S1 ++ S2 ≠ [] := by
        simp [List.append_eq_nil, hS1]
      have hmb1 : 0 ≤ pyMax 0 (S1.map (fun s => s.severity_boost)) := by
        refine pyMax_nonneg ?_ ?_
        · intro b hb
          obtain ⟨s, hs, rfl⟩ := List.mem_map.mp hb
          exact h1 s hs
        · simpa using hS1
      have hmle : pyMax 0 (S1.map (fun s => s.severity_boost)) ≤
          pyMax 0 ((S1 ++ S2).map (fun s => s.severity_boost)) := by
        rw [List.map_append]
        exact pyMax_le_append 0 (by simpa using hS1) _
      rw [escalate_priority_cons p hS1, escalate_priority_cons p hS12, hlen]
      set k1 := min (pyBaseIdx p + pyMax 0 (S1.map (fun s => s.severity_boost))) 3 with hk1
      set k2 := min (pyBaseIdx p + pyMax 0 ((S1 ++ S2).map (fun s => s.severity_boost))) 3 with hk2
      have hk10 : 0 ≤ k1 := le_min (by linarith) (by norm_num)
      have hk13 : k1 ≤ 3 := min_le_right _ _
      have hk20 : 0 ≤ k2 := le_min (by linarith) (by norm_num)
      have hk23 : k2 ≤ 3 := min_le_right _ _
      rw [rank_pyGet k1 hk10 hk13, rank_pyGet k2 hk20 hk23]
      exact Int.toNat_le_toNat (min_le_min (by linarith) le_rfl)
  · by_cases h12e : S1 ++ S2 = []
    · simp [escalate_priority, h12e]
    · have hmb : 0 ≤ pyMax 0 ((S1 ++ S2).map (fun s => s.severity_boost)) := by
        refine pyMax_nonneg ?_ ?_
        · intro b hb
          obtain ⟨s, hs, rfl⟩ := List.mem_map.mp hb
          exact h12 s hs
        · simpa using h12e
      rw [escalate_priority_cons "critical" h12e, hlen]
      have hbc : pyBaseIdx "critical" = 3 := by decide
      rw [hbc, min_eq_right (by linarith)]
      decide

/-- C6 witness: monotonicity applied at base priority "low", a singleton
signal set S1 and a one-signal extension S2. -/
theorem escalate_priority_monotone_witness :
    priorityRank (escalate_priority "low" [⟨"trapped", "trapped", 3, 0⟩]).1 ≤
      priorityRank (escalate_priority "low"
        ([⟨"trapped", "trapped", 3, 0⟩] ++ [⟨"hungry", "no_food", 1, 5⟩])).1 ∧
    (escalate_priority "critical"
        ([⟨"trapped", "trapped", 3, 0⟩] ++ [⟨"hungry", "no_food", 1, 5⟩])).1 = "critical" :=
  escalate_priority_monotone "low" (by decide)
    [⟨"trapped", "trapped", 3, 0⟩] [⟨"hungry", "no_food", 1, 5⟩]
    (by intro s hs; simp at hs; subst hs; decide)
    (by intro s hs; simp at hs; subst hs; decide)

/-! ## Invariants of the urgency-signal scan -/

/-- Invariant of the `(signals, seen_labels)` accumulator of
`extract_urgency_signals`: the signal labels are exactly `seen_labels` (in
order), `seen_labels` has no duplicates, and every label comes from
`URGENCY_RULES`. -/
def ScanInv (acc : List UrgencySignal × List String) : Prop :=
  acc.1.map (fun s => s.label) = acc.2 ∧ acc.2.Nodup ∧
  ∀ s ∈ acc.1, s.label ∈ URGENCY_RULES.map (fun r => r.2.1)

/-- `applyRule` preserves the scan invariant for any rule of
`URGENCY_RULES` and any matcher behaviour. -/
lemma applyRule_inv (tl : String) (finditer : String → String → List ReMatch)
    (rule : String × String × Int) (hrule : rule ∈ URGENCY_RULES)
    (acc : List UrgencySignal × List String) (h : ScanInv acc) :
    ScanInv (applyRule tl finditer acc rule) := by
  unfold applyRule
  refine List.foldlRecOn (finditer rule.1 tl) _ acc h ?_
  intro a ha m hm
  by_cases hc : rule.2.1 ∈ a.2
  · simpa [hc] using ha
  · obtain ⟨hmap, hnd, hlab⟩ := ha
    have hcond : a.2.contains rule.2.1 = false := by simpa using hc
    refine ⟨?_, ?_, ?_⟩
    · simp [hc, List.map_append, hmap]
    · simp only [hcond, Bool.false_eq_true, if_false]
      rw [List.nodup_append]
      refine ⟨hnd, List.nodup_singleton _, ?_⟩
      intro b hb1 hb2
      rw [List.mem_singleton] at hb2
      subst hb2
      exact hc hb1
    · intro s hs
      simp only [hcond, Bool.false_eq_true, if_false] at hs
      rcases List.mem_append.mp hs with h | h
      · exact hlab s h
      · simp at h
        subst h
        exact List.mem_map_of_mem (fun r => r.2.1) hrule

/-- The full rule scan satisfies the invariant. -/
lemma scan_inv (tl : String) (finditer : String → String → List ReMatch) :
    ScanInv (URGENCY_RULES.foldl (applyRule tl finditer) ([], [])) := by
  refine List.foldlRecOn URGENCY_RULES _ _ ?_ ?_
  · exact ⟨rfl, List.nodup_nil, by simp⟩
  · intro acc hacc rule hrule
    exact applyRule_inv tl finditer rule hrule acc hacc

/-- Properties of `extract_urgency_signals` for any matcher: pairwise
distinct labels, labels from the configured rule set, and boosts sorted
descending. -/
lemma extract_urgency_signals_props (finditer : String → String → List ReMatch)
    (text : String) :
    (extract_urgency_signals finditer text).Pairwise (fun a b => a.label ≠ b.label) ∧
    (∀ s ∈ extract_urgency_signals finditer text,
        s.label ∈ URGENCY_RULES.map (fun r => r.2.1)) ∧
    (extract_urgency_signals finditer text).Pairwise
      (fun a b => b.severity_boost ≤ a.severity_boost) := by
  unfold extract_urgency_signals
  by_cases ht : text = ""
  · simp [ht]
  · simp only [ht, if_neg, ite_false]
    obtain ⟨hmap, hnd, hlab⟩ := scan_inv text.toLower finditer
    set collected := (URGENCY_RULES.foldl (applyRule text.toLower finditer) ([], [])).1 with hcol
    have hperm : (collected.mergeSort
        (fun a b => decide (b.severity_boost ≤ a.severity_boost))).Perm collected :=
      List.mergeSort_perm collected _
    refine ⟨?_, ?_, ?_⟩
    · have hpw : collected.Pairwise (fun a b => a.label ≠ b.label) := by
        have : (collected.map (fun s => s.label)).Nodup := by rw [hmap]; exact hnd
        exact List.pairwise_map.mp this
      exact hpw.perm hperm.symm (fun hxy e => hxy e.symm)
    · intro s hs
      exact hlab s (hperm.mem_iff.mp hs)
    · have hs := @List.sorted_mergeSort UrgencySignal
        (fun a b : UrgencySignal => decide (b.severity_boost ≤ a.severity_boost))
        (fun a b c hab hbc => by
          simp only [decide_eq_true_eq] at hab hbc ⊢
          exact le_trans hbc hab)
        (fun a b => by
          simp only [Bool.or_eq_true, decide_eq_true_eq]
          exact le_total b.severity_boost a.severity_boost)
        collected
      exact hs.imp fun h => of_decide_eq_true h

/-- C9: for every text and matcher behaviour, the `urgency_signals` of
`classify_request` have pairwise-distinct labels, each label belongs to the
fixed label set of `URGENCY_RULES`, and the list is sorted by
`severity_boost` in descending order. -/
theorem classify_request_urgency_signals_props
    (finditer : String → String → List ReMatch)
    (crt : String → List String × List (String × ℚ))
    (eqy : String → Int) (text up : String) :
    (classify_request finditer crt eqy text up).urgency_signals.Pairwise
      (fun a b => a.label ≠ b.label) ∧
    (∀ d ∈ (classify_request finditer crt eqy text up).urgency_signals,
        d.label ∈ URGENCY_RULES.map (fun r => r.2.1)) ∧
    (classify_request finditer crt eqy text up).urgency_signals.Pairwise
      (fun a b => b.severity_boost ≤ a.severity_boost) := by
  obtain ⟨hdist, hsub, hsort⟩ := extract_urgency_signals_props finditer text
  have husig : (classify_request finditer crt eqy text up).urgency_signals =
      (extract_urgency_signals finditer text).map
        (fun s => ⟨s.keyword, s.label, s.severity_boost⟩) := rfl
  rw [husig]
  refine ⟨?_, ?_, ?_⟩
  · exact List.pairwise_map.mpr (hdist.imp fun h => h)
  · intro d hd
    obtain ⟨s, hs, rfl⟩ := List.mem_map.mp hd
    exact hsub s hs
  · exact List.pairwise_map.mpr (hsort.imp fun h => h)

/-! ## `app/services/ingestion/alert_service.py` -/

/-- An ingested event as consumed by the alert service: the `event.get(...)`
keys it reads, each optional (absent keys yield the `get` default). -/
structure IngestEvent where
  id : Option String := none
  title : Option String := none
  severity : Option String := none
  event_type : Option String := none
  latitude : Option ℚ := none
  longitude : Option ℚ := none
  location_name : Option String := none
  description : Option String := none

/-- A user row returned by `_get_ngo_recipients`. -/
structure Recipient where
  id : String := ""
  email : Option String := none
  phone : Option String := none
  role : Option String := none
  full_name : Option String := none

/-- Outcome of `_send_email` (the SendGrid call is external; the behaviour is
passed in as a function). -/
structure SendResult where
  status : String
  message_id : Option String := none
  error : Option String := none

/-- Embedding of the `notif_base` dict constructed and persisted by
`AlertNotificationService._send`. -/
structure AlertNotification where
  id : String
  event_id : Option String
  disaster_id : Option String
  prediction_id : Option String
  recipient : String
  recipient_role : String
  subject : String
  body : String
  severity : String
  status : String
  created_at : String
  channel : String
  external_ref : Option String := none
  error_message : Option String := none
  sent_at : Option String := none

/-- Python truthiness of an optional string (`None` and `""` are falsy). -/
def truthyS : Option String → Bool
  | none => false
  | some s => s ≠ ""

/-- Python truthiness of an optional float (`None` and `0.0` are falsy). -/
def truthyQ : Option ℚ → Bool
  | none => false
  | some q => q ≠ 0

/-- Python `f"{x:.4f}"` on a coordinate (CPython rounds the float half to
even; the exact midpoint convention is irrelevant to every claim here). -/
def fmt4 (q : ℚ) : String :=
  let n : Int := round (q * 10000)
  let sign := if n < 0 then "-" else ""
  let m := n.natAbs
  let frac := toString (m % 10000)
  sign ++ toString (m / 10000) ++ "." ++
    List.asString (List.replicate (4 - frac.length) '0') ++ frac

/-- Embedding of `AlertNotificationService._build_body(event)`. -/
def _build_body (event : IngestEvent) : String :=
  let l0 := ["CRITICAL DISASTER ALERT", "",
    "Event: " ++ event.title.getD "Unknown",
    "Severity: " ++ (event.severity.getD "N/A").toUpper,
    "Type: " ++ event.event_type.getD "N/A"]
  let l1 := if truthyQ event.latitude && truthyQ event.longitude then
      l0 ++ ["Location: " ++ fmt4 (event.latitude.getD 0) ++ ", " ++
        fmt4 (event.longitude.getD 0)]
    else l0
  let l2 := if truthyS event.location_name then
      l1 ++ ["Place: " ++ event.location_name.getD ""]
    else l1
  let l3 := if truthyS event.description then
      l2 ++ ["", (event.description.getD "").take 500]
    else l2
  String.intercalate "\n"
    (l3 ++ ["", "Please log in to the Disaster Management Platform for full details."])

/-- Embedding of `AlertNotificationService._send`: builds the notification
record for one recipient, attempting email when the recipient has an email
address and a SendGrid key is configured, with the log fallback otherwise.
`notifId` stands for the generated `uuid4`, `nowIso` for the current
timestamp, and `emailSend` for the external `_send_email` call. -/
def _send (sendgridKey : Option String)
    (emailSend : String → String → String → SendResult)
    (event : IngestEvent) (disaster_id prediction_id : Option String)
    (recipient : Recipient) (notifId nowIso : String) : AlertNotification :=
  let subject := "🚨 CRITICAL ALERT: " ++ event.title.getD "Disaster Event"
  let body := _build_body event
  let base : AlertNotification := {
    id := notifId
    event_id := event.id
    disaster_id := disaster_id
    prediction_id := prediction_id
    recipient := recipient.email.getD ""
    recipient_role := recipient.role.getD "ngo"
    subject := subject
    body := body
    severity := event.severity.getD "critical"
    status := "pending"
    created_at := nowIso
    channel := "log" }
  if truthyS recipient.email && truthyS sendgridKey then
    let r := emailSend (recipient.email.getD "") subject body
    { base with
        channel := "email"
        external_ref := r.message_id
        status := r.status
        error_message := r.error
        sent_at := if r.status = "sent" then some nowIso else none }
  else
    { base with channel := "log", status := "logged", error_message := none }

/-- Embedding of `AlertNotificationService.evaluate_and_notify`.  The first
component of the result is the returned notification list; the second is the
list of rows inserted into the `alert_notifications` table (one insert per
`_send` call).  `threshold` is `cfg.ALERT_SEVERITY_THRESHOLD` (default
"critical"), `recipients` the rows `_get_ngo_recipients` returns, and
`uuids k` the `uuid4` drawn for the k-th recipient. -/
def evaluate_and_notify (threshold : String) (sendgridKey : Option String)
    (emailSend : String → String → String → SendResult)
    (event : IngestEvent) (disaster_id prediction_id : Option String)
    (recipients : List Recipient) (uuids : Nat → String) (nowIso : String) :
    List AlertNotification × List AlertNotification :=
  let severity := event.severity.getD "low"
  if severity ≠ threshold then ([], [])
  else if recipients.isEmpty then ([], [])
  else
    let ns := recipients.enum.map (fun p =>
      _send sendgridKey emailSend event disaster_id prediction_id p.2
        (uuids p.1) nowIso)
    (ns, ns)

/-- C1: when the event severity differs from the configured threshold,
`evaluate_and_notify` returns the empty list and persists no
`AlertNotification` record, for every disaster_id and prediction_id. -/
theorem evaluate_and_notify_gate (threshold : String)
    (sendgridKey : Option String)
    (emailSend : String → String → String → SendResult)
    (event : IngestEvent) (disaster_id prediction_id : Option String)
    (recipients : List Recipient) (uuids : Nat → String) (nowIso : String)
    (h : event.severity.getD "low" ≠ threshold) :
    evaluate_and_notify threshold sendgridKey emailSend event disaster_id
      prediction_id recipients uuids nowIso = ([], []) := by
  simp [evaluate_and_notify, h]

/-- C1 witness: a "high"-severity event against the default "critical"
threshold, with a configured recipient, produces no notification and no
persisted row. -/
theorem evaluate_and_notify_gate_witness :
    evaluate_and_notify "critical" none (fun _ _ _ => ⟨"failed", none, none⟩)
      { severity := some "high", title := some "Quake" } (some "d1") none
      [{ id := "u1", email := some "x@y.zz" }] (fun _ => "n1") "t0" = ([], []) :=
  evaluate_and_notify_gate "critical" none (fun _ _ _ => ⟨"failed", none, none⟩)
    { severity := some "high", title := some "Quake" } (some "d1") none
    [{ id := "u1", email := some "x@y.zz" }] (fun _ => "n1") "t0" (by decide)

/-! ## `app/services/allocation_engine.py` -/

/-- Embedding of the `AvailableResource` dataclass (expiry timestamps as
rationals). -/
structure AvailableResource where
  id : String
  resource_type : String
  quantity : ℚ
  priority : Int
  location_lat : ℚ
  location_lng : ℚ
  location_id : String
  expiry_date : Option ℚ := none
deriving DecidableEq, Inhabited

/-- Embedding of the `ResourceNeed` dataclass. -/
structure ResourceNeed where
  need_type : String
  quantity : ℚ
  urgency : ℚ := 5
  zone_lat : ℚ := 0
  zone_lng : ℚ := 0
deriving DecidableEq, Inhabited

/-- Embedding of the `PriorityWeights` dataclass; the weights feed only the
objective handed to the external MILP solver. -/
structure PriorityWeights where
  urgency_weight : ℚ := 1
  distance_weight : ℚ := 3/10
  expiry_weight : ℚ := 1/5
  coverage_weight : ℚ := 1
deriving DecidableEq, Inhabited

/-- One allocation dict appended to `result.allocations`. -/
structure AllocationRow where
  resource_id : String
  type : String
  quantity : ℚ
  location : String
  distance_km : ℚ
  expiry_date : Option ℚ
deriving DecidableEq

/-- One unmet-need dict appended to `result.unmet_needs`. -/
structure UnmetRow where
  type : String
  quantity : ℚ
  urgency : ℚ
deriving DecidableEq

/-- Embedding of the `AllocationResult` dataclass. -/
structure AllocationResult where
  allocations : List AllocationRow := []
  unmet_needs : List UnmetRow := []
  coverage_pct : ℚ := 0
  estimated_delivery_km : ℚ := 0
  optimization_score : ℚ := 0
  solver_status : String := "not_solved"

/-- Verdict of the external CBC solve of the MILP built by
`solve_allocation`: either a non-optimal pulp status string, or an optimal
0/1 assignment `x i j` of the binary decision variables `x_{i}_{j}`. -/
inductive SolverOutcome where
  | nonOptimal (status : String)
  | optimal (x : Nat → Nat → Bool)

/-- The value strings of `pulp.LpStatus` (the map from solver status codes
to display strings; `result.solver_status` is set to one of these after a
solve). -/
def pulpLpStatusStrings : List String :=
  ["Not Solved", "Optimal", "Infeasible", "Unbounded", "Undefined"]

/-- Python `round(x, 2)` (CPython rounds half to even on floats; the
midpoint convention is irrelevant to every claim here). -/
def round2 (q : ℚ) : ℚ := ((round (q * 100) : ℤ) : ℚ) / 100

/-- Python `round(x, 4)`. -/
def round4 (q : ℚ) : ℚ := ((round (q * 10000) : ℤ) : ℚ) / 10000

/-- The eligibility test of the pre-computed matrices: same type, within
`max_distance_km` of the zone, and enough quantity.  `hav` is the
`haversine` function of `distance.py`, passed as a parameter because the
engine only compares and stores its values. -/
def eligiblePair (hav : ℚ → ℚ → ℚ → ℚ → ℚ) (maxd : ℚ)
    (r : AvailableResource) (n : ResourceNeed) : Bool :=
  r.resource_type == n.need_type &&
  decide (hav r.location_lat r.location_lng n.zone_lat n.zone_lng ≤ maxd) &&
  decide (n.quantity ≤ r.quantity)

/-- Whether any (resource, need) pair is eligible — exactly the condition
under which the source's `obj_terms` list is non-empty (one objective term
is appended per eligible pair). -/
def anyEligible (hav : ℚ → ℚ → ℚ → ℚ → ℚ) (maxd : ℚ)
    (resources : List AvailableResource) (needs : List ResourceNeed) : Bool :=
  resources.any (fun r => needs.any (fun n => eligiblePair hav maxd r n))

/-- The (i, j) index pairs with `x[i][j]` set in the solver solution, in the
order of the extraction's nested `for i` / `for j` loops. -/
def allocPairs (x : Nat → Nat → Bool) (nRes nNeeds : Nat) : List (Nat × Nat) :=
  (List.range nRes).flatMap (fun i =>
    ((List.range nNeeds).filter (fun j => x i j)).map (fun j => (i, j)))

/-- The allocation dict built for a chosen pair (i, j). -/
def mkAllocRow (hav : ℚ → ℚ → ℚ → ℚ → ℚ)
    (resources : List AvailableResource) (needs : List ResourceNeed)
    (p : Nat × Nat) : AllocationRow :=
  let r := resources.getD p.1 default
  let n := needs.getD p.2 default
  { resource_id := r.id
    type := r.resource_type
    quantity := n.quantity
    location := r.location_id
    distance_km := round2 (hav r.location_lat r.location_lng n.zone_lat n.zone_lng)
    expiry_date := r.expiry_date }

/-- The unmet-need dict for a need. -/
def unmetRowOf (n : ResourceNeed) : UnmetRow := ⟨n.need_type, n.quantity, n.urgency⟩

/-- The constraints of the MILP that `solve_allocation` hands to CBC: every
ineligible pair is forced to zero (`ineligible_{i}_{j}`), each resource is
allocated at most once (`one_alloc_{i}`), and each need is satisfied by at
most one resource (`one_source_{j}`).  An optimal solution returned by the
solver satisfies all of them. -/
def FeasibleAssignment (hav : ℚ → ℚ → ℚ → ℚ → ℚ) (maxd : ℚ)
    (resources : List AvailableResource) (needs : List ResourceNeed)
    (x : Nat → Nat → Bool) : Prop :=
  (∀ i, i < resources.length → ∀ j, j < needs.length →
      eligiblePair hav maxd (resources.getD i default) (needs.getD j default) = false →
      x i j = false) ∧
  (∀ i, i < resources.length →
      (List.range needs.length).countP (fun j => x i j) ≤ 1) ∧
  (∀ j, j < needs.length →
      (List.range resources.length).countP (fun i => x i j) ≤ 1)

/-- Embedding of `solve_allocation(resources, needs, weights,
max_distance_km)`.  The MILP solve itself is external (PuLP / CBC), so its
verdict is an explicit `outcome` parameter; everything else — the trivial
and no-eligible-pair early returns, the status strings, and the solution
extraction (`pulp.value(x[i][j]) > 0.5` becomes `x i j = true`) — follows
the source.  The objective coefficients (urgency, coverage, distance
penalty, expiry bonus from `_expiry_score`) only steer the external
solver's choice of `outcome` and are not otherwise observable, but the
emptiness of `obj_terms`, which triggers the `infeasible_no_eligible`
return, is `anyEligible`. -/
def solve_allocation (hav : ℚ → ℚ → ℚ → ℚ → ℚ)
    (resources : List AvailableResource) (needs : List ResourceNeed)
    (weights : Option PriorityWeights) (max_distance_km : ℚ)
    (outcome : SolverOutcome) : AllocationResult :=
  let _w := weights.getD {}
  if resources.isEmpty || needs.isEmpty then
    { solver_status := "trivial_empty", unmet_needs := needs.map unmetRowOf }
  else if !(anyEligible hav max_distance_km resources needs) then
    { solver_status := "infeasible_no_eligible", unmet_needs := needs.map unmetRowOf }
  else
    match outcome with
    | .nonOptimal s =>
        { solver_status := s, unmet_needs := needs.map unmetRowOf }
    | .optimal x =>
        let pairs := allocPairs x resources.length needs.length
        let met := pairs.map (fun p => p.2)
        let nNeeds := needs.length
        { solver_status := "Optimal"
          allocations := pairs.map (mkAllocRow hav resources needs)
          unmet_needs := ((List.range nNeeds).filter
              (fun j => !(met.contains j))).map
            (fun j => unmetRowOf (needs.getD j default))
          coverage_pct := round2 ((met.dedup.length : ℚ) / (nNeeds : ℚ) * 100)
          estimated_delivery_km := round2 ((pairs.map (fun p =>
            hav (resources.getD p.1 default).location_lat
              (resources.getD p.1 default).location_lng
              (needs.getD p.2 default).zone_lat
              (needs.getD p.2 default).zone_lng)).sum)
          optimization_score := round4 ((met.dedup.length : ℚ) / (nNeeds : ℚ)) }

/-! ## Lemmas about the extracted solver solution -/

/-- Membership in `allocPairs`. -/
lemma mem_allocPairs {x : Nat → Nat → Bool} {nRes nNeeds i j : Nat} :
    (i, j) ∈ allocPairs x nRes nNeeds ↔ i < nRes ∧ j < nNeeds ∧ x i j = true := by
  simp only [allocPairs, List.mem_flatMap, List.mem_map, List.mem_filter,
    List.mem_range, Prod.mk.injEq]
  constructor
  · rintro ⟨a, ha, b, ⟨hb, hxab⟩, rfl, rfl⟩
    exact ⟨ha, hb, hxab⟩
  · rintro ⟨hi, hj, hx⟩
    exact ⟨i, hi, j, ⟨hj, hx⟩, rfl, rfl⟩

/-- Every member of `allocPairs` is a pair of in-range indices with the
variable set. -/
lemma of_mem_allocPairs {x : Nat → Nat → Bool} {nRes nNeeds : Nat}
    {p : Nat × Nat} (hp : p ∈ allocPairs x nRes nNeeds) :
    p.1 < nRes ∧ p.2 < nNeeds ∧ x p.1 p.2 = true := by
  obtain ⟨i, j⟩ := p
  exact mem_allocPairs.mp hp

/-- Indexing `getD` through `range` realises a plain `map`. -/
lemma map_range_getD {α β : Type} [Inhabited α] (f : α → β) (l : List α) :
    (List.range l.length).map (fun j => f (l.getD j default)) = l.map f := by
  induction l with
  | nil => rfl
  | cons a t ih =>
      rw [List.length_cons, List.range_succ_eq_map, List.map_cons,
        List.getD_cons_zero, List.map_map]
      refine congrArg (f a :: ·) ?_
      have hcomp : ((fun j => f ((a :: t).getD j default)) ∘ Nat.succ) =
          (fun j => f (t.getD j default)) := by
        funext j
        simp [List.getD_cons_succ]
      rw [hcomp, ih]

/-- In a list whose `countP` is at most one, two members satisfying the
predicate coincide. -/
lemma eq_of_countP_le_one {l : List Nat} {p : Nat → Bool}
    (h : l.countP p ≤ 1) {a b : Nat} (ha : a ∈ l) (hb : b ∈ l)
    (hpa : p a = true) (hpb : p b = true) : a = b := by
  have ha2 : a ∈ l.filter p := List.mem_filter.mpr ⟨ha, hpa⟩
  have hb2 : b ∈ l.filter p := List.mem_filter.mpr ⟨hb, hpb⟩
  have hlen : (l.filter p).length ≤ 1 := by
    rw [← List.countP_eq_length_filter]
    exact h
  cases hfl : l.filter p with
  | nil =>
      rw [hfl] at ha2
      exact absurd ha2 (List.not_mem_nil a)
  | cons c t =>
      rw [hfl] at ha2 hb2 hlen
      cases t with
      | nil =>
          rw [List.mem_singleton] at ha2 hb2
          rw [ha2, hb2]
      | cons d t2 => simp at hlen

/-- Under the `one_alloc_{i}` row constraints, no resource index repeats in
the extracted pairs. -/
lemma allocPairs_map_fst_nodup {x : Nat → Nat → Bool} {nRes nNeeds : Nat}
    (hrow : ∀ i, i < nRes → (List.range nNeeds).countP (fun j => x i j) ≤ 1) :
    ((allocPairs x nRes nNeeds).map Prod.fst).Nodup := by
  unfold allocPairs
  rw [List.map_flatMap, List.nodup_flatMap]
  constructor
  · intro i hi
    rw [List.map_map]
    have hlen : ((List.range nNeeds).filter (fun j => x i j)).length ≤ 1 := by
      rw [← List.countP_eq_length_filter]
      exact hrow i (List.mem_range.mp hi)
    cases hfl : (List.range nNeeds).filter (fun j => x i j) with
    | nil => exact List.nodup_nil
    | cons a t =>
        rw [hfl] at hlen
        cases t with
        | nil => exact List.nodup_singleton _
        | cons b t2 => simp at hlen
  · refine (List.pairwise_lt_range nRes).imp ?_
    intro i1 i2 hlt a ha1 ha2
    simp only [List.map_map, List.mem_map, Function.comp] at ha1 ha2
    obtain ⟨j1, hj1, rfl⟩ := ha1
    obtain ⟨j2, hj2, he⟩ := ha2
    exact (Nat.ne_of_lt hlt) he.symm

/-- Under the `one_source_{j}` column constraints, no need index repeats in
the extracted pairs. -/
lemma allocPairs_map_snd_nodup {x : Nat → Nat → Bool} {nRes nNeeds : Nat}
    (hcol : ∀ j, j < nNeeds → (List.range nRes).countP (fun i => x i j) ≤ 1) :
    ((allocPairs x nRes nNeeds).map Prod.snd).Nodup := by
  unfold allocPairs
  rw [List.map_flatMap, List.nodup_flatMap]
  constructor
  · intro i hi
    rw [List.map_map]
    have hid : (Prod.snd ∘ fun j => ((i, j) : Nat × Nat)) = id := rfl
    rw [hid, List.map_id]
    exact (List.nodup_range nNeeds).filter _
  · refine (List.Pairwise.and_mem.mp (List.pairwise_lt_range nRes)).imp ?_
    rintro i1 i2 ⟨hi1, hi2, hlt⟩ j hj1 hj2
    simp only [List.map_map, List.mem_map, Function.comp] at hj1 hj2
    obtain ⟨j1, hj1f, rfl⟩ := hj1
    obtain ⟨j2, hj2f, he⟩ := hj2
    subst he
    obtain ⟨hjr1, hx1⟩ := List.mem_filter.mp hj1f
    obtain ⟨hjr2, hx2⟩ := List.mem_filter.mp hj2f
    have : i1 = i2 := eq_of_countP_le_one
      (hcol j2 (List.mem_range.mp hjr1)) hi1 hi2 hx1 hx2
    exact (Nat.ne_of_lt hlt) this

/-- C2: every allocation returned by `solve_allocation` binds an eligible
resource-need pair: matching type, resource quantity at least the need
quantity, and distance at most `max_distance_km`, whenever an optimal solver
outcome satisfies the constraints of the MILP it was handed. -/
theorem solve_allocation_feasible (hav : ℚ → ℚ → ℚ → ℚ → ℚ)
    (resources : List AvailableResource) (needs : List ResourceNeed)
    (weights : Option PriorityWeights) (max_distance_km : ℚ)
    (outcome : SolverOutcome)
    (hx : ∀ x, outcome = SolverOutcome.optimal x →
        FeasibleAssignment hav max_distance_km resources needs x) :
    ∀ a ∈ (solve_allocation hav resources needs weights max_distance_km
        outcome).allocations,
      ∃ i j, i < resources.length ∧ j < needs.length ∧
        (resources.getD i default).resource_type =
          (needs.getD j default).need_type ∧
        (needs.getD j default).quantity ≤ (resources.getD i default).quantity ∧
        hav (resources.getD i default).location_lat
            (resources.getD i default).location_lng
            (needs.getD j default).zone_lat
            (needs.getD j default).zone_lng ≤ max_distance_km ∧
        a = mkAllocRow hav resources needs (i, j) := by
  intro a ha
  unfold solve_allocation at ha
  split_ifs at ha with h1 h2
  · simp at ha
  · simp at ha
  · cases outcome with
    | nonOptimal s => simp at ha
    | optimal x =>
        simp only [List.mem_map] at ha
        obtain ⟨p, hp, rfl⟩ := ha
        obtain ⟨hi, hj, hxp⟩ := of_mem_allocPairs hp
        obtain ⟨hinelig, hrow, hcol⟩ := hx x rfl
        have helig : eligiblePair hav max_distance_km
            (resources.getD p.1 default) (needs.getD p.2 default) = true := by
          by_contra hne
          have hfalse : eligiblePair hav max_distance_km
              (resources.getD p.1 default) (needs.getD p.2 default) = false :=
            Bool.eq_false_iff.mpr hne
          rw [hinelig p.1 hi p.2 hj hfalse] at hxp
          exact Bool.false_ne_true hxp
        simp only [eligiblePair, Bool.and_eq_true, beq_iff_eq,
          decide_eq_true_eq] at helig
        exact ⟨p.1, p.2, hi, hj, helig.1.1, helig.2, helig.1.2, rfl⟩

/-! ## Concrete solver fixtures used by the witnesses -/

/-- A concrete rational distance function standing in for `haversine` in the
executable witnesses (constant, so that kernel evaluation never needs
rational normalisation). -/
def havTest : ℚ → ℚ → ℚ → ℚ → ℚ := fun _ _ _ _ => 1

/-- A concrete available resource. -/
def resTest : AvailableResource :=
  { id := "R1", resource_type := "water", quantity := 100, priority := 5,
    location_lat := 0, location_lng := 0, location_id := "L1",
    expiry_date := none }

/-- A concrete resource need. -/
def needTest : ResourceNeed :=
  { need_type := "water", quantity := 50, urgency := 9,
    zone_lat := 0, zone_lng := 1 }

/-- A concrete optimal assignment choosing the single pair (0, 0). -/
def xTest : Nat → Nat → Bool := fun i j => i == 0 && j == 0

/-- C2 witness: the feasibility theorem applied to a concrete one-resource,
one-need instance with the (0,0) assignment, at the single allocation row
that instance produces. -/
theorem solve_allocation_feasible_witness :
    ∃ i j, i < [resTest].length ∧ j < [needTest].length ∧
      ([resTest].getD i default).resource_type =
        ([needTest].getD j default).need_type ∧
      ([needTest].getD j default).quantity ≤ ([resTest].getD i default).quantity ∧
      havTest ([resTest].getD i default).location_lat
          ([resTest].getD i default).location_lng
          ([needTest].getD j default).zone_lat
          ([needTest].getD j default).zone_lng ≤ 500 ∧
      mkAllocRow havTest [resTest] [needTest] (0, 0) =
        mkAllocRow havTest [resTest] [needTest] (i, j) :=
  solve_allocation_feasible havTest [resTest] [needTest] none 500
    (SolverOutcome.optimal xTest)
    (by
      intro x hx
      cases hx
      unfold FeasibleAssignment
      decide)
    (mkAllocRow havTest [resTest] [needTest] (0, 0))
    (List.mem_singleton.mpr rfl)

/-- C3: in every result of `solve_allocation` (with an optimal outcome
satisfying the MILP constraints), the allocations arise from a pair list in
which each resource index and each need index appears at most once, the
unmet needs are exactly the needs at indices not covered by any pair, and
every need index is covered exactly once or listed as unmet — never both
and never neither. -/
theorem solve_allocation_cardinality (hav : ℚ → ℚ → ℚ → ℚ → ℚ)
    (resources : List AvailableResource) (needs : List ResourceNeed)
    (weights : Option PriorityWeights) (max_distance_km : ℚ)
    (outcome : SolverOutcome)
    (hx : ∀ x, outcome = SolverOutcome.optimal x →
        FeasibleAssignment hav max_distance_km resources needs x) :
    ∃ pairs : List (Nat × Nat),
      (solve_allocation hav resources needs weights max_distance_km
          outcome).allocations = pairs.map (mkAllocRow hav resources needs) ∧
      (pairs.map Prod.fst).Nodup ∧
      (pairs.map Prod.snd).Nodup ∧
      (solve_allocation hav resources needs weights max_distance_km
          outcome).unmet_needs =
        ((List.range needs.length).filter
            (fun j => !((pairs.map Prod.snd).contains j))).map
          (fun j => unmetRowOf (needs.getD j default)) ∧
      ∀ j, j < needs.length →
        (((pairs.map Prod.snd).count j = 1 ∧
            j ∉ (List.range needs.length).filter
              (fun j2 => !((pairs.map Prod.snd).contains j2))) ∨
         ((pairs.map Prod.snd).count j = 0 ∧
            j ∈ (List.range needs.length).filter
              (fun j2 => !((pairs.map Prod.snd).contains j2)))) := by
  have hempty : ∀ j, j < needs.length →
      ((([] : List (Nat × Nat)).map Prod.snd).count j = 1 ∧
          j ∉ (List.range needs.length).filter
            (fun j2 => !((([] : List (Nat × Nat)).map Prod.snd).contains j2))) ∨
       ((([] : List (Nat × Nat)).map Prod.snd).count j = 0 ∧
          j ∈ (List.range needs.length).filter
            (fun j2 => !((([] : List (Nat × Nat)).map Prod.snd).contains j2))) := by
    intro j hj
    right
    refine ⟨rfl, ?_⟩
    simp [List.mem_filter, List.mem_range, hj]
  have hunmet_nil : needs.map unmetRowOf =
      ((List.range needs.length).filter
          (fun j => !((([] : List (Nat × Nat)).map Prod.snd).contains j))).map
        (fun j => unmetRowOf (needs.getD j default)) := by
    have hfil : (List.range needs.length).filter
        (fun j => !((([] : List (Nat × Nat)).map Prod.snd).contains j)) =
        List.range needs.length := by
      simp
    rw [hfil, map_range_getD]
  unfold solve_allocation
  split_ifs with h1 h2
  · exact ⟨[], rfl, List.nodup_nil, List.nodup_nil, hunmet_nil, hempty⟩
  · exact ⟨[], rfl, List.nodup_nil, List.nodup_nil, hunmet_nil, hempty⟩
  · cases outcome with
    | nonOptimal s =>
        exact ⟨[], rfl, List.nodup_nil, List.nodup_nil, hunmet_nil, hempty⟩
    | optimal x =>
        obtain ⟨hinelig, hrow, hcol⟩ := hx x rfl
        refine ⟨allocPairs x resources.length needs.length, rfl,
          allocPairs_map_fst_nodup hrow, allocPairs_map_snd_nodup hcol,
          rfl, ?_⟩
        intro j hj
        set met := (allocPairs x resources.length needs.length).map Prod.snd
          with hmet
        by_cases hjm : j ∈ met
        · left
          refine ⟨List.count_eq_one_of_mem (allocPairs_map_snd_nodup hcol) hjm, ?_⟩
          intro hmem
          obtain ⟨hrange, hnc⟩ := List.mem_filter.mp hmem
          exact absurd hjm (by simpa using hnc)
        · right
          refine ⟨List.count_eq_zero_of_not_mem hjm, ?_⟩
          refine List.mem_filter.mpr ⟨List.mem_range.mpr hj, ?_⟩
          simpa using hjm

/-- C3 witness: the cardinality theorem applied to the concrete
one-resource, one-need instance with the (0,0) assignment. -/
theorem solve_allocation_cardinality_witness :
    ∃ pairs : List (Nat × Nat),
      (solve_allocation havTest [resTest] [needTest] none 500
          (SolverOutcome.optimal xTest)).allocations =
        pairs.map (mkAllocRow havTest [resTest] [needTest]) ∧
      (pairs.map Prod.fst).Nodup ∧
      (pairs.map Prod.snd).Nodup ∧
      (solve_allocation havTest [resTest] [needTest] none 500
          (SolverOutcome.optimal xTest)).unmet_needs =
        ((List.range [needTest].length).filter
            (fun j => !((pairs.map Prod.snd).contains j))).map
          (fun j => unmetRowOf ([needTest].getD j default)) ∧
      ∀ j, j < [needTest].length →
        (((pairs.map Prod.snd).count j = 1 ∧
            j ∉ (List.range [needTest].length).filter
              (fun j2 => !((pairs.map Prod.snd).contains j2))) ∨
         ((pairs.map Prod.snd).count j = 0 ∧
            j ∈ (List.range [needTest].length).filter
              (fun j2 => !((pairs.map Prod.snd).contains j2)))) :=
  solve_allocation_cardinality havTest [resTest] [needTest] none 500
    (SolverOutcome.optimal xTest)
    (by
      intro x hx
      cases hx
      unfold FeasibleAssignment
      decide)

/-- C5: whenever `solve_allocation` does not complete an optimal solve —
empty resources, empty needs, no eligible resource-need pair, or a
non-optimal external solve — the result has an empty allocation list and
lists every input need as unmet, and the solver status names the cause
(`trivial_empty`, `infeasible_no_eligible`, or the pulp status string of
the failed solve, in that order of precedence). -/
theorem solve_allocation_failure (hav : ℚ → ℚ → ℚ → ℚ → ℚ)
    (resources : List AvailableResource) (needs : List ResourceNeed)
    (weights : Option PriorityWeights) (max_distance_km : ℚ)
    (outcome : SolverOutcome)
    (h : resources = [] ∨ needs = [] ∨
        anyEligible hav max_distance_km resources needs = false ∨
        ∃ s, outcome = SolverOutcome.nonOptimal s) :
    (solve_allocation hav resources needs weights max_distance_km
        outcome).allocations = [] ∧
    (solve_allocation hav resources needs weights max_distance_km
        outcome).unmet_needs = needs.map unmetRowOf ∧
    (resources = [] ∨ needs = [] →
      (solve_allocation hav resources needs weights max_distance_km
          outcome).solver_status = "trivial_empty") ∧
    (resources ≠ [] → needs ≠ [] →
      anyEligible hav max_distance_km resources needs = false →
      (solve_allocation hav resources needs weights max_distance_km
          outcome).solver_status = "infeasible_no_eligible") ∧
    (∀ s, resources ≠ [] → needs ≠ [] →
      anyEligible hav max_distance_km resources needs = true →
      outcome = SolverOutcome.nonOptimal s →
      (solve_allocation hav resources needs weights max_distance_km
          outcome).solver_status = s) := by
  unfold solve_allocation
  split_ifs with h1 h2
  · refine ⟨rfl, rfl, fun _ => rfl, ?_, ?_⟩
    · intro hr hn _
      rw [Bool.or_eq_true, List.isEmpty_iff, List.isEmpty_iff] at h1
      rcases h1 with h1 | h1
      · exact absurd h1 hr
      · exact absurd h1 hn
    · intro s hr hn _ _
      rw [Bool.or_eq_true, List.isEmpty_iff, List.isEmpty_iff] at h1
      rcases h1 with h1 | h1
      · exact absurd h1 hr
      · exact absurd h1 hn
  · refine ⟨rfl, rfl, ?_, fun _ _ _ => rfl, ?_⟩
    · intro hre
      rcases hre with hr | hn
      · exact absurd (by simp [hr]) h1
      · exact absurd (by simp [hn]) h1
    · intro s hr hn hany _
      exact absurd hany (by simp_all)
  · cases outcome with
    | nonOptimal s0 =>
        refine ⟨rfl, rfl, ?_, ?_, ?_⟩
        · intro hre
          rcases hre with hr | hn
          · exact absurd (by simp [hr]) h1
          · exact absurd (by simp [hn]) h1
        · intro hr hn hany
          exact absurd (by simp [hany]) h2
        · intro s hr hn hany heq
          cases heq
          rfl
    | optimal x =>
        rcases h with hr | hn | hany | ⟨s, heq⟩
        · exact absurd (by simp [hr]) h1
        · exact absurd (by simp [hn]) h1
        · exact absurd (by simp [hany]) h2
        · exact absurd heq (by simp)

/-- C5 witness: the failure theorem applied to the concrete instance with a
timed-out/non-optimal solve (pulp status "Not Solved"). -/
theorem solve_allocation_failure_witness :
    (solve_allocation havTest [resTest] [needTest] none 500
        (SolverOutcome.nonOptimal "Not Solved")).allocations = [] ∧
    (solve_allocation havTest [resTest] [needTest] none 500
        (SolverOutcome.nonOptimal "Not Solved")).unmet_needs =
      [needTest].map unmetRowOf ∧
    ([resTest] = [] ∨ [needTest] = [] →
      (solve_allocation havTest [resTest] [needTest] none 500
          (SolverOutcome.nonOptimal "Not Solved")).solver_status =
        "trivial_empty") ∧
    ([resTest] ≠ [] → [needTest] ≠ [] →
      anyEligible havTest 500 [resTest] [needTest] = false →
      (solve_allocation havTest [resTest] [needTest] none 500
          (SolverOutcome.nonOptimal "Not Solved")).solver_status =
        "infeasible_no_eligible") ∧
    (∀ s, [resTest] ≠ [] → [needTest] ≠ [] →
      anyEligible havTest 500 [resTest] [needTest] = true →
      SolverOutcome.nonOptimal "Not Solved" = SolverOutcome.nonOptimal s →
      (solve_allocation havTest [resTest] [needTest] none 500
          (SolverOutcome.nonOptimal "Not Solved")).solver_status = s) :=
  solve_allocation_failure havTest [resTest] [needTest] none 500
    (SolverOutcome.nonOptimal "Not Solved")
    (Or.inr (Or.inr (Or.inr ⟨"Not Solved", rfl⟩)))

/-- C4 (amended): the solver status of every result is drawn from
`{trivial_empty, infeasible_no_eligible}` together with the `pulp.LpStatus`
display strings (`Optimal`, `Not Solved`, `Infeasible`, `Unbounded`,
`Undefined`); in particular a successful solve yields the capitalised
"Optimal" and no `solver_timeout` string exists. -/
theorem solve_allocation_status_set (hav : ℚ → ℚ → ℚ → ℚ → ℚ)
    (resources : List AvailableResource) (needs : List ResourceNeed)
    (weights : Option PriorityWeights) (max_distance_km : ℚ)
    (outcome : SolverOutcome)
    (hs : ∀ s, outcome = SolverOutcome.nonOptimal s → s ∈ pulpLpStatusStrings) :
    (solve_allocation hav resources needs weights max_distance_km
        outcome).solver_status ∈
      "trivial_empty" :: "infeasible_no_eligible" :: pulpLpStatusStrings := by
  unfold solve_allocation
  split_ifs with h1 h2
  · exact List.mem_cons_self _ _
  · exact List.mem_cons_of_mem _ (List.mem_cons_self _ _)
  · cases outcome with
    | nonOptimal s =>
        exact List.mem_cons_of_mem _ (List.mem_cons_of_mem _ (hs s rfl))
    | optimal x =>
        exact List.mem_cons_of_mem _ (List.mem_cons_of_mem _
          (show "Optimal" ∈ pulpLpStatusStrings by decide))

/-- C4 witness: the status-set theorem applied to the concrete instance with
an optimal solve. -/
theorem solve_allocation_status_set_witness :
    (solve_allocation havTest [resTest] [needTest] none 500
        (SolverOutcome.optimal xTest)).solver_status ∈
      "trivial_empty" :: "infeasible_no_eligible" :: pulpLpStatusStrings :=
  solve_allocation_status_set havTest [resTest] [needTest] none 500
    (SolverOutcome.optimal xTest) (fun s hEq => by cases hEq)

/-- C4 counterexample: on a one-resource, one-need instance whose solve is
optimal, the solver status is the pulp display string "Optimal", which lies
outside the claimed set {optimal, infeasible_no_eligible, trivial_empty,
solver_timeout}. -/
theorem solve_allocation_status_spec_violation :
    (solve_allocation havTest [resTest] [needTest] none 500
        (SolverOutcome.optimal xTest)).solver_status ∉
      (["optimal", "infeasible_no_eligible", "trivial_empty",
        "solver_timeout"] : List String) := by
  have hstat : (solve_allocation havTest [resTest] [needTest] none 500
      (SolverOutcome.optimal xTest)).solver_status = "Optimal" := by
    unfold solve_allocation
    split_ifs with h1 h2
    · exact absurd h1 (by decide)
    · exact absurd h2 (by decide)
    · rfl
  rw [hstat]
  decide
